import Mathlib

/-!
Verification development for a backport of Python 3 `tempfile` module
(`backports/tempfile.py`).  The definitions below are a shallow embedding
of the data model of the module and operations:

* `Domain`, `PathVal`, `inferReturnType`, `sanitizeParams` embed
  `_infer_return_type` and `_sanitize_params`;
* `Closer`, `closerClose`, `closeSeq` embed the POSIX branch of
  `_TemporaryFileCloser` (the non-Windows case);
* `Wrapper`, `wrapperClose` embed `_TemporaryFileWrapper.close`;
* `mkstempInner`, `namedTemporaryFile` embed `NamedTemporaryFile`
  (with the stdlib `tempfile._mkstemp_inner` collaborator modelled from
  the spec contract);
* `tempFileCall`, `tempFileCalls` embed the strategy-selection skeleton
  of the POSIX `TemporaryFile` and its `_O_TMPFILE_WORKS` module global;
* `mkdtempModel`, `TempDir` and its operations embed `TemporaryDirectory`.

Filesystem state is explicit (`FS`, `Sys`); side effects of close/cleanup
are reified as an `Effect` list so that "performed exactly once" is a
statement about the emitted effect list.  Exceptions are values of
`PyExc`; an operation that can raise returns the raised exception in an
`Option`/`Except` channel instead of unwinding.
-/

/-- A Python exception value, as far as the claims need to distinguish
exceptions: `TypeError` with a message, `OSError` with an errno, or a
generic exception raised by a wrapped stream operation. -/
inductive PyExc
  | typeError (msg : String)
  | osError (errno : Nat)
  | exc (msg : String)
  deriving DecidableEq

/-- errno for "No such file or directory". -/
def ENOENT : Nat := 2

/-- errno for "File exists" (raised when the retry budget is exhausted). -/
def EEXIST : Nat := 17

/-- A single-quote character, built from its code point so the string
literals below stay plain. -/
def squote : String := String.singleton (Char.ofNat 39)

/-- The message of the `TypeError` raised by `_infer_return_type` when
bytes and non-bytes path components are mixed. -/
def mixErrMsg : String :=
  "Can" ++ squote ++ "t mix bytes and non-bytes in path components."

/-- The `TypeError` raised on bytes/text mixing. -/
def mixErr : PyExc := PyExc.typeError mixErrMsg

/-- The naming domain of a path component: decoded text (`str`) or raw
bytes (`bytes`). -/
inductive Domain
  | text
  | bytes
  deriving DecidableEq

/-- A prefix/suffix/dir argument value: a payload tagged with the domain
its Python type implies. -/
structure PathVal where
  dom : Domain
  val : String
  deriving DecidableEq

/-- The loop body of `_infer_return_type`: scan the arguments left to
right, skip `None`, raise `TypeError` when a `bytes` argument follows a
text one or vice versa, otherwise remember the domain seen. -/
def inferLoop (rt : Option Domain) : List (Option PathVal) → Except PyExc (Option Domain)
  | [] => Except.ok rt
  | none :: rest => inferLoop rt rest
  | some a :: rest =>
    match a.dom with
    | Domain.bytes =>
      if rt = some Domain.text then Except.error mixErr
      else inferLoop (some Domain.bytes) rest
    | Domain.text =>
      if rt = some Domain.bytes then Except.error mixErr
      else inferLoop (some Domain.text) rest

/-- Embeds `_infer_return_type(*args)`: the domain implied by the supplied
arguments, defaulting to text when none is supplied. -/
def inferReturnType (args : List (Option PathVal)) : Except PyExc Domain :=
  match inferLoop none args with
  | Except.error e => Except.error e
  | Except.ok none => Except.ok Domain.text
  | Except.ok (some t) => Except.ok t

/-- The module-level default name template, `template = u"tmp"`. -/
def templateStr : String := "tmp"

/-- Embeds `gettempdir()` / `gettempdirb()`: the process default temporary
directory, one value per domain (same path, differently typed). -/
def defaultTempDir : String := "/tmp"

/-- Embeds `_sanitize_params(prefix, suffix, dir)`: infer the output domain
first, then resolve each absent argument to its domain-appropriate
default.  A domain-mixing `TypeError` propagates before any default is
resolved or any path is assembled. -/
def sanitizeParams (pre suf dirArg : Option PathVal) :
    Except PyExc (PathVal × PathVal × PathVal × Domain) :=
  match inferReturnType [pre, suf, dirArg] with
  | Except.error e => Except.error e
  | Except.ok t =>
    let suf0 := suf.getD ⟨t, ""⟩
    let pre0 := pre.getD ⟨t, templateStr⟩
    let dir0 := dirArg.getD ⟨t, defaultTempDir⟩
    Except.ok (pre0, suf0, dir0, t)

/-- The filesystem visible to the module: which regular-file paths and
which directory paths currently exist. -/
structure FS where
  files : List String
  dirs : List String
  deriving DecidableEq

/-- Does `p` lie at or strictly below `root`? -/
def underPath (root p : String) : Bool :=
  p == root || (root ++ "/").isPrefixOf p

/-- Remove one regular file. -/
def FS.removeFile (fs : FS) (p : String) : FS :=
  { fs with files := fs.files.filter (fun q => q != p) }

/-- Embeds `shutil.rmtree(root)`: remove the directory `root` and everything
below it. -/
def FS.rmtree (fs : FS) (root : String) : FS :=
  { files := fs.files.filter (fun q => !underPath root q),
    dirs := fs.dirs.filter (fun q => !underPath root q) }

/-- A reified side effect of a close/cleanup operation. -/
inductive Effect
  | closeStream
  | unlinkFile (path : String)
  | rmtreeDir (path : String)
  deriving DecidableEq

/-- Apply one effect to the filesystem. -/
def FS.applyEffect (fs : FS) : Effect → FS
  | Effect.closeStream => fs
  | Effect.unlinkFile p => fs.removeFile p
  | Effect.rmtreeDir p => fs.rmtree p

/-- Apply a list of effects left to right. -/
def FS.applyEffects (fs : FS) (l : List Effect) : FS :=
  l.foldl FS.applyEffect fs

/-- Embeds `_TemporaryFileCloser`: `file` is `None` only before `__init__` ran
(the class attribute default); `close_called` guards the one-shot close. -/
structure Closer where
  file : Option Unit
  name : String
  delete : Bool
  close_called : Bool
  deriving DecidableEq

/-- Embeds `_TemporaryFileCloser.__init__(file, name, delete)`. -/
def mkCloser (name : String) (delete : Bool) : Closer :=
  { file := some (), name := name, delete := delete, close_called := false }

/-- The POSIX `_TemporaryFileCloser.close`: when not yet called and a
file is attached, set the guard, close the stream and — in a `finally`
block, so also when the stream close raised — unlink the path when
`delete` is set; the stream-close exception (modelled by the
`streamErr` input, `none` for a normal close) then propagates.
Returns the new closer state, the effects performed, and the exception
raised, if any. -/
def closerClose (c : Closer) (streamErr : Option PyExc) :
    Closer × List Effect × Option PyExc :=
  if c.close_called = false ∧ c.file.isSome then
    ({ c with close_called := true },
     Effect.closeStream :: (if c.delete then [Effect.unlinkFile c.name] else []),
     streamErr)
  else (c, [], none)

/-- A sequence of `close()` calls, one per entry of `errs` (each entry
says whether the underlying stream close would raise on that call);
accumulates the effects performed and the exceptions raised. -/
def closeSeq (c : Closer) : List (Option PyExc) → Closer × List Effect × List PyExc
  | [] => (c, [], [])
  | e :: es =>
    let r1 := closerClose c e
    let r2 := closeSeq r1.1 es
    (r2.1, r1.2.1 ++ r2.2.1, r1.2.2.toList ++ r2.2.2)

/-- Embeds `_TemporaryFileWrapper`: the public handle over the stream, the
path, the delete flag and the owning closer. -/
structure Wrapper where
  name : String
  delete : Bool
  closer : Closer
  deriving DecidableEq

/-- The wrapper as built by `_TemporaryFileWrapper.__init__`. -/
def mkWrapper (name : String) (delete : Bool) : Wrapper :=
  { name := name, delete := delete, closer := mkCloser name delete }

/-- Embeds `_TemporaryFileWrapper.close`: delegate to the closer. -/
def wrapperClose (w : Wrapper) (streamErr : Option PyExc) :
    Wrapper × List Effect × Option PyExc :=
  let r := closerClose w.closer streamErr
  ({ w with closer := r.1 }, r.2.1, r.2.2)

/-- A sequence of `close()` calls on the wrapper. -/
def wrapperCloseSeq (w : Wrapper) : List (Option PyExc) → Wrapper × List Effect × List PyExc
  | [] => (w, [], [])
  | e :: es =>
    let r1 := wrapperClose w e
    let r2 := wrapperCloseSeq r1.1 es
    (r2.1, r1.2.1 ++ r2.2.1, r1.2.2.toList ++ r2.2.2)

lemma closerClose_called (c : Closer) (h : c.close_called = true) (e : Option PyExc) :
    closerClose c e = (c, [], none) := by
  simp [closerClose, h]

lemma closeSeq_called (c : Closer) (h : c.close_called = true) :
    ∀ es : List (Option PyExc), closeSeq c es = (c, [], []) := by
  intro es
  induction es with
  | nil => rfl
  | cons e es ih =>
    simp [closeSeq, closerClose_called c h e, ih]

lemma wrapperCloseSeq_called (w : Wrapper) (h : w.closer.close_called = true) :
    ∀ es : List (Option PyExc), wrapperCloseSeq w es = (w, [], []) := by
  intro es
  induction es with
  | nil => rfl
  | cons e es ih =>
    simp [wrapperCloseSeq, wrapperClose, closerClose_called w.closer h e, ih]

/-- Claim C1: on a freshly constructed `NamedTemporaryFile` handle, any
sequence of `close()` calls of length N ≥ 1 performs the stream close
once and — when `delete` is set — the unlink once, both during the first
call; every subsequent call changes nothing, performs nothing and raises
nothing (the only exception ever raised is that of the first call, namely its
stream-close failure, when there is one). -/
theorem close_is_idempotent (name : String) (delete : Bool)
    (e0 : Option PyExc) (es : List (Option PyExc)) :
    wrapperCloseSeq (mkWrapper name delete) (e0 :: es) =
      ({ name := name, delete := delete,
         closer := { file := some (), name := name, delete := delete,
                     close_called := true } },
       Effect.closeStream :: (if delete then [Effect.unlinkFile name] else []),
       e0.toList) := by
  have h1 : wrapperClose (mkWrapper name delete) e0 =
      ({ name := name, delete := delete,
         closer := { file := some (), name := name, delete := delete,
                     close_called := true } },
       Effect.closeStream :: (if delete then [Effect.unlinkFile name] else []),
       e0) := by
    simp [wrapperClose, closerClose, mkWrapper, mkCloser]
  have h2 := wrapperCloseSeq_called
      { name := name, delete := delete,
        closer := { file := some (), name := name, delete := delete,
                    close_called := true } } rfl es
  simp [wrapperCloseSeq, h1, h2]

/-- Claim C10: on the POSIX closer with `delete = True`, a first
`close()` whose underlying stream close raises still performs the unlink
(the `finally` block runs it after the stream-close attempt), and the
stream-close exception then propagates; applying the performed effects
to any filesystem leaves the path absent. -/
theorem close_unlinks_despite_stream_error (name : String) (e : PyExc) (fs : FS) :
    closerClose (mkCloser name true) (some e) =
      ({ file := some (), name := name, delete := true, close_called := true },
       [Effect.closeStream, Effect.unlinkFile name], some e)
    ∧ name ∉ (FS.applyEffects fs [Effect.closeStream, Effect.unlinkFile name]).files := by
  constructor
  · simp [closerClose, mkCloser]
  · simp [FS.applyEffects, FS.applyEffect, FS.removeFile, List.mem_filter]

/-- Kernel/OS state beyond the filesystem: the next descriptor number to
hand out and the set of currently open descriptors. -/
structure Sys where
  fs : FS
  nextFd : Nat
  openFds : List Nat
  deriving DecidableEq

/-- Modelled from the spec: the candidate loop of the stdlib collaborator
`tempfile._mkstemp_inner` (not under src/), per the NameCandidateGenerator
plus AtomicCreator contract — each attempt assembles
`dir/` + `pre0` + token + `suf0` and tries an exclusive create; an
existing name is the only retryable condition; an exhausted budget is a
file-exists error.  `tokens` is the bounded stream of random tokens
(its length standing for the TMP_MAX budget). -/
def mkstempLoop (sys : Sys) (dir pre0 suf0 : String) :
    List String → Except PyExc (Nat × String × Sys)
  | [] => Except.error (PyExc.osError EEXIST)
  | t :: ts =>
    let name := dir ++ "/" ++ pre0 ++ t ++ suf0
    if name ∈ sys.fs.files then mkstempLoop sys dir pre0 suf0 ts
    else
      Except.ok (sys.nextFd, name,
        { sys with
          fs := { sys.fs with files := name :: sys.fs.files },
          nextFd := sys.nextFd + 1,
          openFds := sys.nextFd :: sys.openFds })

/-- Modelled from the spec: `tempfile._mkstemp_inner` itself — a missing
parent directory is fatal with the original not-found errno and is never
retried; otherwise the candidate loop runs.  A failed call leaves no
leftover artifact (the state is returned only on success). -/
def mkstempInner (sys : Sys) (dir pre0 suf0 : String) (tokens : List String) :
    Except PyExc (Nat × String × Sys) :=
  if dir ∈ sys.fs.dirs then mkstempLoop sys dir pre0 suf0 tokens
  else Except.error (PyExc.osError ENOENT)

/-- Embeds `NamedTemporaryFile` (POSIX branch, where `delete` does not set
`O_TEMPORARY`): sanitize the parameters, create via `_mkstemp_inner`,
then build the buffered stream over the descriptor.  `streamErr` models
the outcome of `_io.open`: on `some e`, the `except BaseException`
handler unlinks the created name, closes the raw descriptor and
re-raises `e`; on `none` the wrapper is returned.  The pair holds the
resulting system state and the returned handle or raised exception. -/
def namedTemporaryFile (sys : Sys) (pre suf dirArg : Option PathVal) (delete : Bool)
    (tokens : List String) (streamErr : Option PyExc) :
    Sys × Except PyExc Wrapper :=
  match sanitizeParams pre suf dirArg with
  | Except.error e => (sys, Except.error e)
  | Except.ok (pre0, suf0, dir0, _t) =>
    match mkstempInner sys dir0.val pre0.val suf0.val tokens with
    | Except.error e => (sys, Except.error e)
    | Except.ok (fd, name, sys1) =>
      match streamErr with
      | none => (sys1, Except.ok (mkWrapper name delete))
      | some e =>
        ({ sys1 with
           fs := sys1.fs.removeFile name,
           openFds := sys1.openFds.filter (fun g => g != fd) },
         Except.error e)

lemma mkstempLoop_ok_mem (sys : Sys) (dir pre0 suf0 : String) :
    ∀ (tokens : List String) (fd : Nat) (name : String) (sys1 : Sys),
      mkstempLoop sys dir pre0 suf0 tokens = Except.ok (fd, name, sys1) →
      name ∈ sys1.fs.files := by
  intro tokens
  induction tokens with
  | nil => intro fd name sys1 h; simp [mkstempLoop] at h
  | cons t ts ih =>
    intro fd name sys1 h
    simp only [mkstempLoop] at h
    by_cases hc : dir ++ "/" ++ pre0 ++ t ++ suf0 ∈ sys.fs.files
    · rw [if_pos hc] at h
      exact ih fd name sys1 h
    · rw [if_neg hc] at h
      cases h
      exact List.mem_cons_self _ _

lemma mkstempInner_ok_mem (sys : Sys) (dir pre0 suf0 : String)
    (tokens : List String) (fd : Nat) (name : String) (sys1 : Sys)
    (h : mkstempInner sys dir pre0 suf0 tokens = Except.ok (fd, name, sys1)) :
    name ∈ sys1.fs.files := by
  unfold mkstempInner at h
  by_cases hd : dir ∈ sys.fs.dirs
  · rw [if_pos hd] at h
    exact mkstempLoop_ok_mem sys dir pre0 suf0 tokens fd name sys1 h
  · rw [if_neg hd] at h
    cases h

/-- Claim C3: when the exclusive raw creation has succeeded and the
buffered-stream construction then fails with `e`, `NamedTemporaryFile`
unlinks the created entry and closes the raw descriptor before
re-raising: the result state has the name removed and the descriptor
closed, and the raised exception is `e` itself, unmodified. -/
theorem ntf_stream_failure_releases_resources
    (sys : Sys) (pre suf dirArg : Option PathVal) (delete : Bool)
    (tokens : List String) (e : PyExc)
    (pv sv dv : PathVal) (t : Domain) (fd : Nat) (name : String) (sys1 : Sys)
    (hsan : sanitizeParams pre suf dirArg = Except.ok (pv, sv, dv, t))
    (hmk : mkstempInner sys dv.val pv.val sv.val tokens = Except.ok (fd, name, sys1)) :
    namedTemporaryFile sys pre suf dirArg delete tokens (some e) =
      ({ sys1 with
         fs := sys1.fs.removeFile name,
         openFds := sys1.openFds.filter (fun g => g != fd) },
       Except.error e)
    ∧ name ∉ (namedTemporaryFile sys pre suf dirArg delete tokens (some e)).1.fs.files
    ∧ fd ∉ (namedTemporaryFile sys pre suf dirArg delete tokens (some e)).1.openFds := by
  have hres : namedTemporaryFile sys pre suf dirArg delete tokens (some e) =
      ({ sys1 with
         fs := sys1.fs.removeFile name,
         openFds := sys1.openFds.filter (fun g => g != fd) },
       Except.error e) := by
    simp [namedTemporaryFile, hsan, hmk]
  refine ⟨hres, ?_, ?_⟩
  · rw [hres]
    simp [FS.removeFile, List.mem_filter]
  · rw [hres]
    simp [List.mem_filter]

/-- Claim C2: after a successful `NamedTemporaryFile` creation the file
is on disk; the first `close()` raises nothing, and after applying its
effects the file is absent when `delete = True` and still present when
`delete = False`. -/
theorem ntf_close_present_iff_not_delete
    (sys : Sys) (pre suf dirArg : Option PathVal) (delete : Bool)
    (tokens : List String)
    (pv sv dv : PathVal) (t : Domain) (fd : Nat) (name : String) (sys1 : Sys)
    (hsan : sanitizeParams pre suf dirArg = Except.ok (pv, sv, dv, t))
    (hmk : mkstempInner sys dv.val pv.val sv.val tokens = Except.ok (fd, name, sys1)) :
    namedTemporaryFile sys pre suf dirArg delete tokens none =
      (sys1, Except.ok (mkWrapper name delete))
    ∧ name ∈ sys1.fs.files
    ∧ (wrapperClose (mkWrapper name delete) none).2.2 = none
    ∧ (delete = true →
        name ∉ (sys1.fs.applyEffects (wrapperClose (mkWrapper name delete) none).2.1).files)
    ∧ (delete = false →
        name ∈ (sys1.fs.applyEffects (wrapperClose (mkWrapper name delete) none).2.1).files) := by
  have hmem : name ∈ sys1.fs.files :=
    mkstempInner_ok_mem sys dv.val pv.val sv.val tokens fd name sys1 hmk
  refine ⟨by simp [namedTemporaryFile, hsan, hmk], hmem, ?_, ?_, ?_⟩
  · simp [wrapperClose, closerClose, mkWrapper, mkCloser]
  · intro hdel
    subst hdel
    simp [wrapperClose, closerClose, mkWrapper, mkCloser,
          FS.applyEffects, FS.applyEffect, FS.removeFile, List.mem_filter]
  · intro hdel
    subst hdel
    simpa [wrapperClose, closerClose, mkWrapper, mkCloser,
           FS.applyEffects, FS.applyEffect] using hmem

/-- A concrete starting state for the witnesses: an empty filesystem
holding only the default temporary directory. -/
def sysW : Sys :=
  { fs := { files := [], dirs := [defaultTempDir] }, nextFd := 3, openFds := [] }

/-- The state after one successful exclusive creation in `sysW` with the
default parameters and random token "a". -/
def sys1W : Sys :=
  { fs := { files := ["/tmp/tmpa"], dirs := ["/tmp"] }, nextFd := 4, openFds := [3] }

/-- Witness for claim C3 at a concrete input. -/
theorem ntf_stream_failure_releases_resources_witness :
    namedTemporaryFile sysW none none none true ["a"] (some (PyExc.exc "boom")) =
      ({ sys1W with
         fs := sys1W.fs.removeFile "/tmp/tmpa",
         openFds := sys1W.openFds.filter (fun g => g != 3) },
       Except.error (PyExc.exc "boom"))
    ∧ "/tmp/tmpa" ∉
        (namedTemporaryFile sysW none none none true ["a"] (some (PyExc.exc "boom"))).1.fs.files
    ∧ 3 ∉ (namedTemporaryFile sysW none none none true ["a"] (some (PyExc.exc "boom"))).1.openFds :=
  ntf_stream_failure_releases_resources sysW none none none true ["a"] (PyExc.exc "boom")
    ⟨Domain.text, templateStr⟩ ⟨Domain.text, ""⟩ ⟨Domain.text, defaultTempDir⟩ Domain.text
    3 "/tmp/tmpa" sys1W rfl rfl

/-- Witness for claim C2 at a concrete input. -/
theorem ntf_close_present_iff_not_delete_witness :
    namedTemporaryFile sysW none none none true ["a"] none =
      (sys1W, Except.ok (mkWrapper "/tmp/tmpa" true))
    ∧ "/tmp/tmpa" ∈ sys1W.fs.files
    ∧ (wrapperClose (mkWrapper "/tmp/tmpa" true) none).2.2 = none
    ∧ (true = true →
        "/tmp/tmpa" ∉
          (sys1W.fs.applyEffects (wrapperClose (mkWrapper "/tmp/tmpa" true) none).2.1).files)
    ∧ (true = false →
        "/tmp/tmpa" ∈
          (sys1W.fs.applyEffects (wrapperClose (mkWrapper "/tmp/tmpa" true) none).2.1).files) :=
  ntf_close_present_iff_not_delete sysW none none none true ["a"]
    ⟨Domain.text, templateStr⟩ ⟨Domain.text, ""⟩ ⟨Domain.text, defaultTempDir⟩ Domain.text
    3 "/tmp/tmpa" sys1W rfl rfl

/-- Is this argument a supplied bytes value? -/
def isBytesArg : Option PathVal → Bool
  | some v => match v.dom with | Domain.bytes => true | Domain.text => false
  | none => false

/-- Is this argument a supplied text value? -/
def isTextArg : Option PathVal → Bool
  | some v => match v.dom with | Domain.text => true | Domain.bytes => false
  | none => false

/-- Some supplied argument is bytes. -/
def anyBytes (args : List (Option PathVal)) : Bool := args.any isBytesArg

/-- Some supplied argument is text. -/
def anyText (args : List (Option PathVal)) : Bool := args.any isTextArg

/-- Claim C4: for every combination of the three arguments,
`_infer_return_type` fails with the mixing `TypeError` exactly when a
supplied bytes value and a supplied text value coexist — whichever
pairing of the three fields carries them — and otherwise returns bytes
when any supplied value is bytes and text when none is (including all
absent); moreover on a mixed combination `_sanitize_params` propagates
that same error, so no defaulted parameter tuple is ever produced. -/
theorem infer_return_type_domains (p s d : Option PathVal) :
    inferReturnType [p, s, d] =
      (if anyBytes [p, s, d] && anyText [p, s, d] then Except.error mixErr
       else if anyBytes [p, s, d] then Except.ok Domain.bytes
       else Except.ok Domain.text)
    ∧ (anyBytes [p, s, d] && anyText [p, s, d] = true →
        sanitizeParams p s d = Except.error mixErr) := by
  constructor
  · rcases p with _ | ⟨pd, pv⟩ <;> rcases s with _ | ⟨sd, sv⟩ <;>
      rcases d with _ | ⟨dd, dv⟩ <;>
      first
      | (cases pd <;> cases sd <;> cases dd <;>
          simp [inferReturnType, inferLoop, anyBytes, anyText, isBytesArg, isTextArg])
      | (cases pd <;> cases sd <;>
          simp [inferReturnType, inferLoop, anyBytes, anyText, isBytesArg, isTextArg])
      | (cases pd <;> cases dd <;>
          simp [inferReturnType, inferLoop, anyBytes, anyText, isBytesArg, isTextArg])
      | (cases sd <;> cases dd <;>
          simp [inferReturnType, inferLoop, anyBytes, anyText, isBytesArg, isTextArg])
      | (cases pd <;>
          simp [inferReturnType, inferLoop, anyBytes, anyText, isBytesArg, isTextArg])
      | (cases sd <;>
          simp [inferReturnType, inferLoop, anyBytes, anyText, isBytesArg, isTextArg])
      | (cases dd <;>
          simp [inferReturnType, inferLoop, anyBytes, anyText, isBytesArg, isTextArg])
      | simp [inferReturnType, inferLoop, anyBytes, anyText, isBytesArg, isTextArg]
  · intro hmix
    rcases p with _ | ⟨pd, pv⟩ <;> rcases s with _ | ⟨sd, sv⟩ <;>
      rcases d with _ | ⟨dd, dv⟩ <;>
      first
      | (cases pd <;> cases sd <;> cases dd <;>
          simp_all [sanitizeParams, inferReturnType, inferLoop,
                    anyBytes, anyText, isBytesArg, isTextArg])
      | (cases pd <;> cases sd <;>
          simp_all [sanitizeParams, inferReturnType, inferLoop,
                    anyBytes, anyText, isBytesArg, isTextArg])
      | (cases pd <;> cases dd <;>
          simp_all [sanitizeParams, inferReturnType, inferLoop,
                    anyBytes, anyText, isBytesArg, isTextArg])
      | (cases sd <;> cases dd <;>
          simp_all [sanitizeParams, inferReturnType, inferLoop,
                    anyBytes, anyText, isBytesArg, isTextArg])
      | (cases pd <;>
          simp_all [sanitizeParams, inferReturnType, inferLoop,
                    anyBytes, anyText, isBytesArg, isTextArg])
      | (cases sd <;>
          simp_all [sanitizeParams, inferReturnType, inferLoop,
                    anyBytes, anyText, isBytesArg, isTextArg])
      | (cases dd <;>
          simp_all [sanitizeParams, inferReturnType, inferLoop,
                    anyBytes, anyText, isBytesArg, isTextArg])
      | simp_all [sanitizeParams, inferReturnType, inferLoop,
                    anyBytes, anyText, isBytesArg, isTextArg]

/-- Witness for claim C4: one mixed pairing (bytes suffix, text dir)
actually raises through both functions, and one unmixed combination
infers bytes. -/
theorem infer_return_type_domains_witness :
    sanitizeParams none (some ⟨Domain.bytes, "b"⟩) (some ⟨Domain.text, "/d"⟩) =
      Except.error mixErr
    ∧ inferReturnType [some ⟨Domain.bytes, "b"⟩, none, none] = Except.ok Domain.bytes := by
  constructor
  · exact (infer_return_type_domains none (some ⟨Domain.bytes, "b"⟩)
      (some ⟨Domain.text, "/d"⟩)).2 rfl
  · exact (infer_return_type_domains (some ⟨Domain.bytes, "b"⟩) none none).1

/-- The outcome of the one anonymous-open attempt (`_os.open(dir,
flags2, 0o600)` with `O_TMPFILE`) inside the POSIX `TemporaryFile`:
success with a descriptor, `IsADirectoryError` (kernel misreads the
flag as directory-only), or another `OSError` (filesystem lacks
support). -/
inductive ProbeResult
  | ok (fd : Nat)
  | isADirectoryError
  | osError
  deriving DecidableEq

/-- What one `TemporaryFile` call did: whether it attempted the
anonymous `O_TMPFILE` open, whether it fell back to the
create-then-unlink `_mkstemp_inner` path, and the value of the
`_O_TMPFILE_WORKS` module global after the call. -/
structure TempFileOutcome where
  attemptedAnon : Bool
  usedFallback : Bool
  worksAfter : Bool
  deriving DecidableEq

/-- The strategy-selection skeleton of the POSIX `TemporaryFile`:
when `_O_TMPFILE_WORKS` is set, attempt the anonymous open; on
`IsADirectoryError` clear the global and fall through to the fallback;
on any other `OSError` fall through without touching the global
(the `except OSError: pass` arm); on success use the anonymous stream.
When the global is clear, go straight to the fallback. -/
def tempFileCall (works : Bool) (probe : ProbeResult) : TempFileOutcome :=
  if works then
    match probe with
    | ProbeResult.ok _ => ⟨true, false, true⟩
    | ProbeResult.isADirectoryError => ⟨true, true, false⟩
    | ProbeResult.osError => ⟨true, true, true⟩
  else ⟨false, true, false⟩

/-- A sequence of `TemporaryFile` calls threading the module global
through the process, returning its final value and the outcome of each call. -/
def tempFileCalls : Bool → List ProbeResult → Bool × List TempFileOutcome
  | w, [] => (w, [])
  | w, p :: ps =>
    let o := tempFileCall w p
    let r := tempFileCalls o.worksAfter ps
    (r.1, o :: r.2)

/-- Counterexample to claim C5: a capability-probe failure of the
`OSError` kind (filesystem lacks support) does not disable the
anonymous strategy — the global stays set and the very next call
attempts the anonymous open again, contradicting "after any one-time
capability-probe failure ... never re-attempts the anonymous open". -/
theorem tmpfile_oserror_probe_reattempts :
    (tempFileCall true ProbeResult.osError).usedFallback = true
    ∧ (tempFileCall true ProbeResult.osError).worksAfter = true
    ∧ (tempFileCall (tempFileCall true ProbeResult.osError).worksAfter
        (ProbeResult.ok 0)).attemptedAnon = true := by
  decide

/-- Claim C5 as amended: only the `IsADirectoryError` probe failure
(directory-only flag misinterpreted) permanently disables the anonymous
strategy — after it, every subsequent call in the process uses the
create-then-unlink fallback and never re-attempts the anonymous open;
an `OSError` probe failure (filesystem lacks support) falls back for
that call only and leaves the global set. -/
theorem tmpfile_isadir_probe_disables_permanently (probes : List ProbeResult) :
    (tempFileCall true ProbeResult.isADirectoryError).usedFallback = true
    ∧ (tempFileCall true ProbeResult.isADirectoryError).worksAfter = false
    ∧ (tempFileCalls false probes).1 = false
    ∧ (tempFileCalls false probes).2.all
        (fun o => !o.attemptedAnon && o.usedFallback) = true
    ∧ (tempFileCall true ProbeResult.osError).usedFallback = true
    ∧ (tempFileCall true ProbeResult.osError).worksAfter = true := by
  refine ⟨rfl, rfl, ?_, ?_, rfl, rfl⟩ <;>
    · induction probes with
      | nil => rfl
      | cons p ps ih => simpa [tempFileCalls, tempFileCall] using ih

/-- Modelled from the spec: the candidate loop of the stdlib
collaborator `tempfile.mkdtemp` (the module under src/ only wraps its
signature), per the NameCandidateGenerator plus AtomicCreator contract
for exclusive directory creation. -/
def mkdtempLoop (sys : Sys) (dir pre0 suf0 : String) :
    List String → Except PyExc (String × Sys)
  | [] => Except.error (PyExc.osError EEXIST)
  | t :: ts =>
    let name := dir ++ "/" ++ pre0 ++ t ++ suf0
    if name ∈ sys.fs.dirs then mkdtempLoop sys dir pre0 suf0 ts
    else
      Except.ok (name, { sys with fs := { sys.fs with dirs := name :: sys.fs.dirs } })

/-- Modelled from the spec: `tempfile.mkdtemp(suffix, prefix, dir)` —
absent arguments resolve to the defaults, a missing parent directory is
fatal with the original not-found errno (never retried, never masked),
otherwise the candidate loop runs. -/
def mkdtempModel (sys : Sys) (suf pre dirArg : Option String) (tokens : List String) :
    Except PyExc (String × Sys) :=
  let pre0 := pre.getD templateStr
  let suf0 := suf.getD ""
  let dir := dirArg.getD defaultTempDir
  if dir ∈ sys.fs.dirs then mkdtempLoop sys dir pre0 suf0 tokens
  else Except.error (PyExc.osError ENOENT)

/-- Python `repr` of a string, as interpolated by the repr format
specifier (quoting only; the paths in this development need no
escaping). -/
def pyReprStr (s : String) : String := squote ++ s ++ squote

/-- Embeds `TemporaryDirectory.__repr__`: the class name and the repr of
`self.name`, in angle brackets. -/
def tempDirRepr (name : String) : String :=
  "<TemporaryDirectory " ++ pyReprStr name ++ ">"

/-- A `TemporaryDirectory` instance: the created path, whether the
registered finalizer is still attached (alive), and the warning message
computed at construction time. -/
structure TempDir where
  name : String
  finalizerAlive : Bool
  warnMessage : String
  deriving DecidableEq

/-- Embeds `TemporaryDirectory.__init__`: create the directory with `mkdtemp`
(an error propagates unmodified), then register the finalizer with the
warning message "Implicitly cleaning up " followed by the repr of self. -/
def tempDirInit (sys : Sys) (suf pre dirArg : Option String) (tokens : List String) :
    Except PyExc (TempDir × Sys) :=
  match mkdtempModel sys suf pre dirArg tokens with
  | Except.error e => Except.error e
  | Except.ok (name, sys1) =>
    Except.ok
      ({ name := name, finalizerAlive := true,
         warnMessage := "Implicitly cleaning up " ++ tempDirRepr name }, sys1)

/-- Embeds `shutil.rmtree` as an operation that can raise: removing a missing
root is a not-found error, otherwise the tree disappears. -/
def rmtreeOp (fs : FS) (root : String) : Except PyExc FS :=
  if root ∈ fs.dirs then Except.ok (fs.rmtree root)
  else Except.error (PyExc.osError ENOENT)

/-- Embeds `TemporaryDirectory.cleanup`: `if self._finalizer.detach():
_rmtree(self.name)` — detach reports whether the finalizer was still
alive and kills it; only then is the tree removed. -/
def TempDir.cleanup (td : TempDir) (fs : FS) : TempDir × FS × Option PyExc :=
  if td.finalizerAlive then
    match rmtreeOp fs td.name with
    | Except.ok fs1 => ({ td with finalizerAlive := false }, fs1, none)
    | Except.error e => ({ td with finalizerAlive := false }, fs, some e)
  else (td, fs, none)

/-- A sequence of `n` `cleanup()` calls, accumulating raised exceptions. -/
def cleanupSeq (td : TempDir) (fs : FS) : Nat → TempDir × FS × List PyExc
  | 0 => (td, fs, [])
  | n + 1 =>
    let r1 := TempDir.cleanup td fs
    let r2 := cleanupSeq r1.1 r1.2.1 n
    (r2.1, r2.2.1, r1.2.2.toList ++ r2.2.2)

/-- The registered finalizer firing on unreachability: when still
alive, run `TemporaryDirectory._cleanup(name, warn_message)` — remove
the tree recursively, then emit the warning through the warning
channel.  Returns the emitted warnings and the raised exception, if
any. -/
def tempDirFinalize (td : TempDir) (fs : FS) :
    TempDir × FS × List String × Option PyExc :=
  if td.finalizerAlive then
    match rmtreeOp fs td.name with
    | Except.ok fs1 => ({ td with finalizerAlive := false }, fs1, [td.warnMessage], none)
    | Except.error e => ({ td with finalizerAlive := false }, fs, [], some e)
  else (td, fs, [], none)

/-- Embeds `TemporaryDirectory.__enter__`: yield the path. -/
def tempDirEnter (td : TempDir) : String := td.name

/-- Embeds `TemporaryDirectory.__exit__`: call `cleanup()` whatever the
exception information is. -/
def tempDirExit (td : TempDir) (fs : FS) (_exc : Option PyExc) :
    TempDir × FS × Option PyExc :=
  TempDir.cleanup td fs

lemma rmtree_root_not_mem (fs : FS) (root : String) :
    root ∉ (fs.rmtree root).dirs := by
  simp [FS.rmtree, List.mem_filter, underPath]

lemma cleanup_dead (td : TempDir) (fs : FS) (h : td.finalizerAlive = false) :
    TempDir.cleanup td fs = (td, fs, none) := by
  simp [TempDir.cleanup, h]

lemma cleanupSeq_dead (td : TempDir) (fs : FS) (h : td.finalizerAlive = false) :
    ∀ n : Nat, cleanupSeq td fs n = (td, fs, []) := by
  intro n
  induction n with
  | zero => rfl
  | succ n ih => simp [cleanupSeq, cleanup_dead td fs h, ih]

lemma mkdtempLoop_ok_mem (sys : Sys) (dir pre0 suf0 : String) :
    ∀ (tokens : List String) (name : String) (sys1 : Sys),
      mkdtempLoop sys dir pre0 suf0 tokens = Except.ok (name, sys1) →
      name ∈ sys1.fs.dirs := by
  intro tokens
  induction tokens with
  | nil => intro name sys1 h; simp [mkdtempLoop] at h
  | cons t ts ih =>
    intro name sys1 h
    simp only [mkdtempLoop] at h
    by_cases hc : dir ++ "/" ++ pre0 ++ t ++ suf0 ∈ sys.fs.dirs
    · rw [if_pos hc] at h
      exact ih name sys1 h
    · rw [if_neg hc] at h
      cases h
      exact List.mem_cons_self _ _

lemma mkdtempModel_ok_mem (sys : Sys) (suf pre dirArg : Option String)
    (tokens : List String) (name : String) (sys1 : Sys)
    (h : mkdtempModel sys suf pre dirArg tokens = Except.ok (name, sys1)) :
    name ∈ sys1.fs.dirs := by
  unfold mkdtempModel at h
  by_cases hd : dirArg.getD defaultTempDir ∈ sys.fs.dirs
  · rw [if_pos hd] at h
    exact mkdtempLoop_ok_mem sys _ _ _ tokens name sys1 h
  · rw [if_neg hd] at h
    cases h

/-- Claim C6: `cleanup()` is idempotent — with the finalizer attached
and the directory on disk, a sequence of `n + 1` calls detaches the
finalizer and removes the tree on the first call, and the whole
sequence raises nothing and changes nothing further: its result equals
that of a single call, and the removed root is indeed gone. -/
theorem tempdir_cleanup_idempotent (td : TempDir) (fs : FS) (n : Nat)
    (halive : td.finalizerAlive = true) (hmem : td.name ∈ fs.dirs) :
    cleanupSeq td fs (n + 1) =
      ({ td with finalizerAlive := false }, fs.rmtree td.name, [])
    ∧ td.name ∉ (fs.rmtree td.name).dirs := by
  have h1 : TempDir.cleanup td fs =
      ({ td with finalizerAlive := false }, fs.rmtree td.name, none) := by
    simp [TempDir.cleanup, halive, rmtreeOp, hmem]
  refine ⟨?_, rmtree_root_not_mem fs td.name⟩
  have h2 := cleanupSeq_dead { td with finalizerAlive := false } (fs.rmtree td.name) rfl n
  simp [cleanupSeq, h1, h2]

/-- Witness directory handle for the `TemporaryDirectory` claims, as
built by `tempDirInit` on `sysW` with token "a". -/
def tdW : TempDir :=
  { name := "/tmp/tmpa", finalizerAlive := true,
    warnMessage := "Implicitly cleaning up " ++ tempDirRepr "/tmp/tmpa" }

/-- The filesystem right after `tdW` was created. -/
def fsW : FS := { files := [], dirs := ["/tmp/tmpa", "/tmp"] }

/-- Witness for claim C6 at a concrete input: three `cleanup()` calls. -/
theorem tempdir_cleanup_idempotent_witness :
    cleanupSeq tdW fsW (2 + 1) =
      ({ tdW with finalizerAlive := false }, fsW.rmtree tdW.name, [])
    ∧ tdW.name ∉ (fsW.rmtree tdW.name).dirs :=
  tempdir_cleanup_idempotent tdW fsW 2 rfl (by decide)

/-- Claim C7: a `TemporaryDirectory` built by `__init__` and left
unreachable without `cleanup()` has its finalizer fire: the tree is
removed recursively, exactly one warning-channel diagnostic is emitted
— the message "Implicitly cleaning up " followed by the repr of the object —
and nothing is raised. -/
theorem tempdir_finalizer_cleans_and_warns
    (sys : Sys) (suf pre dirArg : Option String) (tokens : List String)
    (td : TempDir) (sys1 : Sys)
    (hinit : tempDirInit sys suf pre dirArg tokens = Except.ok (td, sys1)) :
    td.warnMessage = "Implicitly cleaning up " ++ tempDirRepr td.name
    ∧ tempDirFinalize td sys1.fs =
        ({ td with finalizerAlive := false }, sys1.fs.rmtree td.name,
         [td.warnMessage], none)
    ∧ td.name ∉ (sys1.fs.rmtree td.name).dirs := by
  unfold tempDirInit at hinit
  cases hmk : mkdtempModel sys suf pre dirArg tokens with
  | error e => rw [hmk] at hinit; cases hinit
  | ok r =>
    obtain ⟨nm, s1⟩ := r
    rw [hmk] at hinit
    have h2 := Except.ok.inj hinit
    have htd : td =
        { name := nm, finalizerAlive := true,
          warnMessage := "Implicitly cleaning up " ++ tempDirRepr nm } :=
      (congrArg Prod.fst h2).symm
    have hsys : sys1 = s1 := (congrArg Prod.snd h2).symm
    subst htd
    subst hsys
    have hmem : nm ∈ sys1.fs.dirs :=
      mkdtempModel_ok_mem sys suf pre dirArg tokens nm sys1 hmk
    refine ⟨rfl, ?_, rmtree_root_not_mem sys1.fs nm⟩
    simp [tempDirFinalize, rmtreeOp, hmem]

/-- Witness for claim C7 at a concrete input. -/
theorem tempdir_finalizer_cleans_and_warns_witness :
    tdW.warnMessage = "Implicitly cleaning up " ++ tempDirRepr tdW.name
    ∧ tempDirFinalize tdW { sysW with fs := fsW }.fs =
        ({ tdW with finalizerAlive := false },
         { sysW with fs := fsW }.fs.rmtree tdW.name, [tdW.warnMessage], none)
    ∧ tdW.name ∉ ({ sysW with fs := fsW }.fs.rmtree tdW.name).dirs :=
  tempdir_finalizer_cleans_and_warns sysW none none none ["a"] tdW
    { sysW with fs := fsW } rfl

/-- Claim C8: used as a scoped resource, entering yields the created
path, and exiting calls `cleanup()` no matter whether an exception is
propagating — in both cases the exit equals a `cleanup()` call, the
directory tree is removed, and nothing is raised. -/
theorem tempdir_scope_always_cleans (td : TempDir) (fs : FS) (exc : Option PyExc)
    (halive : td.finalizerAlive = true) (hmem : td.name ∈ fs.dirs) :
    tempDirEnter td = td.name
    ∧ tempDirExit td fs exc = TempDir.cleanup td fs
    ∧ tempDirExit td fs exc =
        ({ td with finalizerAlive := false }, fs.rmtree td.name, none)
    ∧ td.name ∉ (fs.rmtree td.name).dirs := by
  refine ⟨rfl, rfl, ?_, rmtree_root_not_mem fs td.name⟩
  simp [tempDirExit, TempDir.cleanup, halive, rmtreeOp, hmem]

/-- Witness for claim C8 at a concrete input, exercising the
propagating-error exit. -/
theorem tempdir_scope_always_cleans_witness :
    tempDirEnter tdW = tdW.name
    ∧ tempDirExit tdW fsW (some (PyExc.exc "boom")) = TempDir.cleanup tdW fsW
    ∧ tempDirExit tdW fsW (some (PyExc.exc "boom")) =
        ({ tdW with finalizerAlive := false }, fsW.rmtree tdW.name, none)
    ∧ tdW.name ∉ (fsW.rmtree tdW.name).dirs :=
  tempdir_scope_always_cleans tdW fsW (some (PyExc.exc "boom")) rfl (by decide)

/-- Claim C9: constructing a `TemporaryDirectory` with `dir` set to a
nonexistent path fails with the not-found `OSError` carrying the
original errno — the very error `mkdtemp` raised, propagated
unmodified by `__init__`, not retried and not replaced by a generic or
attribute error. -/
theorem tempdir_init_nonexistent_dir (sys : Sys) (suf pre : Option String)
    (d : String) (tokens : List String) (h : d ∉ sys.fs.dirs) :
    mkdtempModel sys suf pre (some d) tokens = Except.error (PyExc.osError ENOENT)
    ∧ tempDirInit sys suf pre (some d) tokens = Except.error (PyExc.osError ENOENT) := by
  have h1 : mkdtempModel sys suf pre (some d) tokens =
      Except.error (PyExc.osError ENOENT) := by
    simp [mkdtempModel, h]
  exact ⟨h1, by simp [tempDirInit, h1]⟩

/-- Witness for claim C9 at a concrete input. -/
theorem tempdir_init_nonexistent_dir_witness :
    mkdtempModel sysW none none (some "/nope") ["a"] =
      Except.error (PyExc.osError ENOENT)
    ∧ tempDirInit sysW none none (some "/nope") ["a"] =
      Except.error (PyExc.osError ENOENT) :=
  tempdir_init_nonexistent_dir sysW none none "/nope" ["a"] (by decide)
